import Mathlib

/-!
Verification of the ST-900 GPS gateway (parser.js, server.js) against its
natural-language specification.

The JavaScript source is shallowly embedded: strings are processed as `List Char`,
JS numbers are modelled as exact rationals extended with NaN and signed Infinity
(`JsNum`), timestamps as epoch milliseconds (`JsTime`), and the few JS operations
that can raise (`Date.prototype.toISOString` on an invalid date) are modelled in
the `Except` monad so that the source's try/catch structure is visible.
-/

namespace ST900

abbrev Chars := List Char

/-- Whitespace characters recognised by JS `trim` / `parseFloat` (ASCII subset;
the protocol lines are ASCII). -/
def jsIsWs (c : Char) : Bool :=
  c = ' ' || c = '\t' || c = '\n' || c = '\r' || c = '\x0b' || c = '\x0c'

/-- JS `String.prototype.trim` on a character list. -/
def trimL (cs : Chars) : Chars :=
  ((cs.dropWhile jsIsWs).reverse.dropWhile jsIsWs).reverse

/-- JS `String.prototype.trim`. -/
def jsTrim (s : String) : String := String.mk (trimL s.data)

/-- JS `String.prototype.split` with a one-character separator: `"".split` gives
`[""]`, a trailing separator gives a final `""`. -/
def splitChars (cs : Chars) (sep : Char) : List Chars :=
  match cs with
  | [] => [[]]
  | c :: rest =>
    if c = sep then [] :: splitChars rest sep
    else
      match splitChars rest sep with
      | h :: t => (c :: h) :: t
      | [] => [[c]]

/-- JS `String.prototype.substr start len` (clamped at the end of the string). -/
def substrL (cs : Chars) (start len : ℕ) : Chars := (cs.drop start).take len

/-- Character class `\d` of the source's regexes. -/
def isDigitC (c : Char) : Bool := '0' ≤ c && c ≤ '9'

/-- Character class `\w` (ASCII letters, digits, underscore). -/
def isWordC (c : Char) : Bool := c.isAlpha || isDigitC c || c = '_'

/-- Matches a literal (given lowercase) case-insensitively at the head of `cs`,
returning the rest; used for the source's case-insensitive (`/i`) regex literals. -/
def ciStrip : Chars → Chars → Option Chars
  | [], cs => some cs
  | _ :: _, [] => none
  | p :: ps, c :: cs => if c.toLower = p then ciStrip ps cs else none

/-- Case-insensitive whole-string equality against a lowercase literal. -/
def ciEqL (cs pat : Chars) : Bool := cs.map Char.toLower = pat

/-- Case-insensitive literal-prefix test. -/
def ciHeadL (cs pat : Chars) : Bool := (ciStrip pat cs).isSome

/-- Maximal non-empty run of characters in a class, with the remainder: the
greedy semantics of `X+` when the regex continues with a character that is not
in the class (which is the case at every use site in parser.js, so greedy
matching never needs to backtrack into the run). -/
def takeClass (p : Char → Bool) (cs : Chars) : Option (Chars × Chars) :=
  let run := cs.takeWhile p
  if run = [] then none else some (run, cs.dropWhile p)

/-- Decimal value of a digit string (used only where a regex has already
checked every character with `\d`, so JS `parseInt` returns exactly this). -/
def digitsToNat (cs : Chars) : ℕ := cs.foldl (fun a c => a * 10 + (c.toNat - 48)) 0

/-! ## JS numbers

Exact rationals extended with NaN and signed infinity.  The source only ever
produces numbers via `parseFloat`/literals and combines them with `+ - * / %`,
`Math.floor` and comparisons, all of which are modelled below with JS
semantics (NaN propagates and compares false; `x || d` replaces falsy `x`,
i.e. NaN and 0, by the default). -/

inductive JsNum where
  | nan : JsNum
  | inf : Bool → JsNum          -- `inf true` is +Infinity, `inf false` is -Infinity
  | num : ℚ → JsNum
deriving DecidableEq

namespace JsNum

def isNaN : JsNum → Bool
  | nan => true
  | _ => false

/-- Division by a positive rational constant (the source divides only by the
literals 100 and 60). -/
def divC (x : JsNum) (c : ℚ) : JsNum :=
  match x with
  | nan => nan
  | inf s => inf s
  | num q => num (q / c)

/-- Multiplication by a positive rational constant (the source multiplies only
by the literal 1.852). -/
def mulC (x : JsNum) (c : ℚ) : JsNum :=
  match x with
  | nan => nan
  | inf s => inf s
  | num q => num (q * c)

/-- Floor division helper on ℚ: `q.num / q.den` with Lean's floor-convention
integer division equals `Int.floor q` (see `ratFloor_eq_floor`). -/
def ratFloor (q : ℚ) : ℤ := q.num / q.den

/-- Truncation toward zero on ℚ, the rounding JS `%` is defined from. -/
def ratTrunc (q : ℚ) : ℤ := q.num.tdiv q.den

/-- JS `Math.floor`. -/
def floorN : JsNum → JsNum
  | nan => nan
  | inf s => inf s
  | num q => num (ratFloor q)

/-- JS remainder `x % c` for a positive constant `c`: truncated division,
result carries the sign of the dividend; `Infinity % c` is NaN. -/
def modC (x : JsNum) (c : ℚ) : JsNum :=
  match x with
  | nan => nan
  | inf _ => nan
  | num q => num (q - c * ratTrunc (q / c))

def add (x y : JsNum) : JsNum :=
  match x, y with
  | nan, _ => nan
  | _, nan => nan
  | inf s, inf t => if s = t then inf s else nan
  | inf s, num _ => inf s
  | num _, inf t => inf t
  | num a, num b => num (a + b)

def negN : JsNum → JsNum
  | nan => nan
  | inf s => inf !s
  | num q => num (-q)

/-- JS `x || d` for a number `x` and literal default `d`: NaN and 0 are falsy. -/
def orDefault (x : JsNum) (d : ℚ) : JsNum :=
  match x with
  | nan => num d
  | inf s => inf s
  | num q => if q = 0 then num d else num q

/-- JS `c <= x` for a rational literal `c` (false on NaN). -/
def geC (x : JsNum) (c : ℚ) : Bool :=
  match x with
  | nan => false
  | inf s => s
  | num q => c ≤ q

/-- JS `x <= c` for a rational literal `c` (false on NaN). -/
def leC (x : JsNum) (c : ℚ) : Bool :=
  match x with
  | nan => false
  | inf s => !s
  | num q => q ≤ c

end JsNum

/-- JS `parseFloat`: skip leading whitespace, optional sign, then the longest
prefix that is a decimal literal (`Infinity`, or digits with an optional single
fraction part and an optional exponent); NaN when no digit is found.  Values
are exact rationals (the double-rounding of the runtime is idealised away). -/
def parseFloat (cs0 : Chars) : JsNum :=
  let cs1 := cs0.dropWhile jsIsWs
  let signSplit : Bool × Chars :=
    match cs1 with
    | '-' :: r => (true, r)
    | '+' :: r => (false, r)
    | r => (false, r)
  let neg := signSplit.1
  let cs2 := signSplit.2
  if ['I', 'n', 'f', 'i', 'n', 'i', 't', 'y'].isPrefixOf cs2 then .inf !neg
  else
    let ip := cs2.takeWhile isDigitC
    let rest1 := cs2.dropWhile isDigitC
    let fracSplit : Chars × Chars :=
      match rest1 with
      | '.' :: r => (r.takeWhile isDigitC, r.dropWhile isDigitC)
      | r => ([], r)
    let fp := fracSplit.1
    let rest2 := fracSplit.2
    if ip = [] ∧ fp = [] then .nan
    else
      let mant : ℤ := if neg then -(digitsToNat (ip ++ fp) : ℤ) else (digitsToNat (ip ++ fp) : ℤ)
      let scale : ℕ := fp.length
      let expDigits : Bool × Chars :=
        match rest2 with
        | 'e' :: '-' :: r => (true, r.takeWhile isDigitC)
        | 'E' :: '-' :: r => (true, r.takeWhile isDigitC)
        | 'e' :: '+' :: r => (false, r.takeWhile isDigitC)
        | 'E' :: '+' :: r => (false, r.takeWhile isDigitC)
        | 'e' :: r => (false, r.takeWhile isDigitC)
        | 'E' :: r => (false, r.takeWhile isDigitC)
        | _ => (false, [])
      -- an exponent marker without digits is not part of the longest valid prefix
      let e : ℕ := digitsToNat expDigits.2
      if expDigits.2 = [] then .num (mkRat mant (10 ^ scale))
      else if expDigits.1 then .num (mkRat mant (10 ^ scale * 10 ^ e))
      else .num (mkRat (mant * 10 ^ e) (10 ^ scale))

/-- Option-lifted `parseFloat`, for JS `parseFloat(x)` where `x` may be
`undefined` (which stringifies to `"undefined"` and parses to NaN). -/
def parseFloatO : Option Chars → JsNum
  | none => .nan
  | some cs => parseFloat cs

/-! ## Timestamps and the proleptic Gregorian calendar

JS `Date` is modelled by its epoch-millisecond value.  The source renders every
date with `toISOString`, which is injective on valid dates, so two equal
`JsTime.instant` values denote equal output strings and vice versa.  The two
runtime behaviours that have no epoch value are kept symbolic: `now` (the
wall-clock fallback) and `fromDateString` (the general `new Date(string)`
branch of `parseTimestamp`, whose runtime-defined result is never compared by
any claim). -/

inductive JsTime where
  | instant : ℤ → JsTime
  | now : JsTime
  | fromDateString : String → JsTime
deriving DecidableEq

def isLeap (y : ℕ) : Bool := y % 4 = 0 && (y % 100 ≠ 0 || y % 400 = 0)

def daysInMonth (y m : ℕ) : ℕ :=
  if m = 2 then (if isLeap y then 29 else 28)
  else if m = 4 ∨ m = 6 ∨ m = 9 ∨ m = 11 then 30
  else 31

/-- Days from 1970-01-01 to year `y`, month `m`, day `d` in the proleptic
Gregorian calendar (the civil-from-days algorithm used by every Date
implementation; all divisions are on non-negative operands). -/
def daysFromCivil (y m d : ℕ) : ℤ :=
  let y' : ℤ := if m ≤ 2 then (y : ℤ) - 1 else (y : ℤ)
  let era : ℤ := y' / 400
  let yoe : ℤ := y' - era * 400
  let mp : ℤ := if 2 < m then (m : ℤ) - 3 else (m : ℤ) + 9
  let doy : ℤ := (153 * mp + 2) / 5 + (d : ℤ) - 1
  let doe : ℤ := yoe * 365 + yoe / 4 - yoe / 100 + doy
  era * 146097 + doe - 719468

/-- Epoch milliseconds of the UTC instant `y-m-d h:mi:s`. -/
def utcMs (y m d h mi s : ℕ) : ℤ :=
  (daysFromCivil y m d * 86400 + ((h * 3600 + mi * 60 + s : ℕ) : ℤ)) * 1000

/-- Model of the JS Date constructor applied to the template string
`year-month-dayThour:minute:secondZ` built by the source, as `getTime()`:
a conforming ISO string (digit fields of width 4-2-2-2-2-2, all components in
range) yields its epoch milliseconds, anything else is an invalid date
(`none`), on which `toISOString` raises a RangeError. -/
def isoDateTimeMs (y mo d h mi s : Chars) : Option ℤ :=
  if y.length = 4 ∧ y.all isDigitC ∧ mo.length = 2 ∧ mo.all isDigitC ∧
     d.length = 2 ∧ d.all isDigitC ∧ h.length = 2 ∧ h.all isDigitC ∧
     mi.length = 2 ∧ mi.all isDigitC ∧ s.length = 2 ∧ s.all isDigitC then
    let Y := digitsToNat y
    let M := digitsToNat mo
    let D := digitsToNat d
    let H := digitsToNat h
    let Mi := digitsToNat mi
    let S := digitsToNat s
    if 1 ≤ M ∧ M ≤ 12 ∧ 1 ≤ D ∧ D ≤ daysInMonth Y M ∧
       (H ≤ 23 ∨ (H = 24 ∧ Mi = 0 ∧ S = 0)) ∧ Mi ≤ 59 ∧ S ≤ 59 then
      some (utcMs Y M D H Mi S)
    else none
  else none

/-- Embedding of `parseTimestamp` (parser.js lines 223-271).  Branches in
source order: 10-digit Unix seconds, 13-digit Unix milliseconds, 14-digit
`YYYYMMDDHHMMSS` (UTC), 8-digit `YYYYMMDD` (UTC midnight), then the general
date-string parse, with the current time as last resort.  `parseInt` of a
string the anchored regex has checked to be all digits is its decimal value;
`new Date(ms).toISOString()` cannot raise on the first two branches because a
value of at most 13 digits is inside the valid Date range, and an invalid
date built in the 14- or 8-digit branch raises inside this function's own
try/catch and falls through to the final `now`. -/
def parseTimestamp : Option Chars → JsTime
  | none => .now
  | some t =>
    if t = [] then .now
    else if t.length = 10 ∧ t.all isDigitC then .instant ((digitsToNat t : ℤ) * 1000)
    else if t.length = 13 ∧ t.all isDigitC then .instant (digitsToNat t : ℤ)
    else if t.length = 14 ∧ t.all isDigitC then
      match isoDateTimeMs (substrL t 0 4) (substrL t 4 2) (substrL t 6 2)
          (substrL t 8 2) (substrL t 10 2) (substrL t 12 2) with
      | some ms => .instant ms
      | none => .now
    else if t.length = 8 ∧ t.all isDigitC then
      match isoDateTimeMs (substrL t 0 4) (substrL t 4 2) (substrL t 6 2)
          ['0', '0'] ['0', '0'] ['0', '0'] with
      | some ms => .instant ms
      | none => .now
    else .fromDateString (String.mk t)

/-! ## The normalized location record and the four format decoders -/

/-- The object a decoder returns (parser.js).  Fields that only some decoders
set are `Option`s; `raw_data` and `parsed_at` are attached by `parse` itself. -/
structure GPSRecord where
  type : String
  device_id : String
  lat : JsNum
  lon : JsNum
  speed : JsNum
  heading : Option JsNum
  altitude : Option JsNum
  timestamp : JsTime
  raw_data : Option String
  parsed_at : Option JsTime
deriving DecidableEq

/-- Embedding of `isValidCoordinate` (parser.js lines 279-284). -/
def isValidCoordinate (lat lon : JsNum) : Bool :=
  !lat.isNaN && !lon.isNaN &&
  lat.geC (-90) && lat.leC 90 &&
  lon.geC (-180) && lon.leC 180 &&
  (decide (lat ≠ .num 0) || decide (lon ≠ .num 0))

/-- Capture groups of the tagged-format regex
`ST900,ID:(digits),Lat:(class),Lon:(class),Speed:(class),Time:(digits)` with
the `/i` flag. -/
structure StdCaps where
  idc : Chars
  latc : Chars
  lonc : Chars
  spdc : Chars
  timec : Chars
deriving DecidableEq

def isLatClassC (c : Char) : Bool := isDigitC c || c = '.' || c = '-'

def isSpdClassC (c : Char) : Bool := isDigitC c || c = '.'

/-- Attempt of the tagged-format regex at one start position.  Every repeated
class in the pattern excludes `,`, and every literal that follows a class
starts with `,` (or the pattern ends), so greedy matching is exactly
maximal-run matching and never backtracks into a run. -/
def tryStandardAt (cs : Chars) : Option StdCaps := do
  let cs ← ciStrip "st900,id:".data cs
  let (idc, cs) ← takeClass isDigitC cs
  let cs ← ciStrip ",lat:".data cs
  let (latc, cs) ← takeClass isLatClassC cs
  let cs ← ciStrip ",lon:".data cs
  let (lonc, cs) ← takeClass isLatClassC cs
  let cs ← ciStrip ",speed:".data cs
  let (spdc, cs) ← takeClass isSpdClassC cs
  let cs ← ciStrip ",time:".data cs
  let (timec, _) ← takeClass isDigitC cs
  pure ⟨idc, latc, lonc, spdc, timec⟩

/-- Unanchored leftmost-match search of the tagged-format regex. -/
def searchStandard : Chars → Option StdCaps
  | [] => none
  | c :: rest =>
    match tryStandardAt (c :: rest) with
    | some caps => some caps
    | none => searchStandard rest

/-- Embedding of `parseStandardFormat` (parser.js lines 54-70).  Note: no
coordinate validation is performed on this path. -/
def parseStandardFormat (cs : Chars) : Option GPSRecord :=
  match searchStandard cs with
  | some caps =>
    some { type := "location"
           device_id := String.mk caps.idc
           lat := parseFloat caps.latc
           lon := parseFloat caps.lonc
           speed := parseFloat caps.spdc
           heading := none
           altitude := none
           timestamp := parseTimestamp (some caps.timec)
           raw_data := none
           parsed_at := none }
  | none => none

/-- Embedding of `parseCommaDelimited` (parser.js lines 76-101). -/
def parseCommaDelimited (cs : Chars) : Option GPSRecord :=
  let parts := splitChars cs ','
  if 6 ≤ parts.length then
    let lat := parseFloat (parts.getD 1 [])
    let lon := parseFloat (parts.getD 2 [])
    let speed := parseFloat (parts.getD 3 [])
    let heading := (parseFloat (parts.getD 4 [])).orDefault 0
    if !lat.isNaN && !lon.isNaN && isValidCoordinate lat lon then
      some { type := "location"
             device_id := String.mk (parts.getD 0 [])
             lat := lat
             lon := lon
             speed := speed.orDefault 0
             heading := some heading
             altitude := none
             timestamp := parseTimestamp (some (parts.getD 5 []))
             raw_data := none
             parsed_at := none }
    else none
  else none

/-- Matches of the global regex `(\w+):([^,]+)` in source order, as produced
by the exec loop of `parseAlternativeFormat`: at each position, a maximal
non-empty `\w` run directly followed by `:` and a maximal non-empty run of
non-comma characters; scanning resumes after the value.  (`\w` excludes `:`
and `[^,]` excludes `,`, so greedy matching is maximal-run matching, and a
failed attempt inside a word run fails at every later start inside that run.) -/
def notComma (c : Char) : Bool := c ≠ ','

/-- Scanner for the exec loop, with an explicit structural-recursion budget:
every step consumes at least one character, so a budget of `cs.length` (as
supplied by `kvScan`) is never exhausted. -/
def kvScanF : ℕ → Chars → List (Chars × Chars)
  | 0, _ => []
  | _ + 1, [] => []
  | fuel + 1, c :: rest =>
    if isWordC c then
      match rest.dropWhile isWordC with
      | ':' :: r2 =>
        let v := r2.takeWhile notComma
        if v = [] then kvScanF fuel rest
        else (c :: rest.takeWhile isWordC, v) :: kvScanF fuel (r2.dropWhile notComma)
      | _ => kvScanF fuel rest
    else kvScanF fuel rest

def kvScan (cs : Chars) : List (Chars × Chars) := kvScanF cs.length cs

/-- Lookup in the `pairs` object: keys were lowercased on insertion and a
later duplicate key overwrites an earlier one. -/
def kvLookup (ps : List (Chars × Chars)) (k : String) : Option Chars :=
  ((ps.map (fun p => (String.mk (p.1.map Char.toLower), p.2))).reverse.find?
    (fun p => p.1 = k)).map (fun p => p.2)

/-- Embedding of `parseAlternativeFormat` (parser.js lines 107-135).  The
guard `pairs.imei && pairs.lat && (pairs.lng || pairs.lon)` is a presence
check: every captured value is a non-empty string, hence truthy. -/
def parseAlternativeFormat (cs : Chars) : Option GPSRecord :=
  let pairs := kvScan cs
  match kvLookup pairs "imei", kvLookup pairs "lat",
      (kvLookup pairs "lng" <|> kvLookup pairs "lon") with
  | some imei, some latS, some lonS =>
    let lat := parseFloat latS
    let lon := parseFloat lonS
    if isValidCoordinate lat lon then
      some { type := "location"
             device_id := String.mk imei
             lat := lat
             lon := lon
             speed := (parseFloatO (kvLookup pairs "speed")).orDefault 0
             heading := some ((parseFloatO
               (kvLookup pairs "heading" <|> kvLookup pairs "course")).orDefault 0)
             altitude := some ((parseFloatO
               (kvLookup pairs "alt" <|> kvLookup pairs "altitude")).orDefault 0)
             timestamp := parseTimestamp (kvLookup pairs "time")
             raw_data := none
             parsed_at := none }
    else none
  | _, _, _ => none

/-! ## The delimited HQ-record decoder -/

/-- Conversion of a sexagesimal `DDMM.MMMM` value to decimal degrees
(parser.js lines 168-175, identical code for latitude and longitude):
`degrees = Math.floor(v / 100)`, `minutes = v % 100`, result
`degrees + minutes / 60`. -/
def ddmmToDecimal (v : JsNum) : JsNum :=
  JsNum.add (JsNum.floorN (v.divC 100)) ((v.modC 100).divC 60)

/-- Latitude path of the conversion: negated exactly on hemisphere `S`
(parser.js line 171). -/
def hqLat (v : JsNum) (dir : Chars) : JsNum :=
  if dir = ['S'] then JsNum.negN (ddmmToDecimal v) else ddmmToDecimal v

/-- Longitude path of the conversion: negated exactly on hemisphere `W`
(parser.js line 176). -/
def hqLon (v : JsNum) (dir : Chars) : JsNum :=
  if dir = ['W'] then JsNum.negN (ddmmToDecimal v) else ddmmToDecimal v

/-- Timestamp assembly of `parseHQFormat` (parser.js lines 180-196): split the
`DDMMYY` date and `HHMMSS` time fields with `substr`, prefix the year with
`20`, build the UTC instant, then add 3 hours (the hard-coded Syria offset)
before rendering.  `.error` models the RangeError `toISOString` raises when
the assembled date is invalid. -/
def hqTimestamp (timeStr dateStr : Chars) : Except Unit JsTime :=
  let day := substrL dateStr 0 2
  let month := substrL dateStr 2 2
  let year := '2' :: '0' :: substrL dateStr 4 2
  let hour := substrL timeStr 0 2
  let minute := substrL timeStr 2 2
  let second := substrL timeStr 4 2
  match isoDateTimeMs year month day hour minute second with
  | some ms => .ok (.instant (ms + 3 * 60 * 60 * 1000))
  | none => .error ()

/-- Body of the try block of `parseHQFormat` (parser.js lines 152-208), on the
comma fields of the record: validity flag `A` required, sexagesimal coordinate
conversion, knots-to-km/h conversion by 1.852, shifted timestamp, and the
coordinate-validation gate. -/
def hqBody (parts : List Chars) : Except Unit (Option GPSRecord) :=
  let status := parts.getD 3 []
  if status ≠ ['A'] then .ok none
  else
    let lat := hqLat (parseFloat (parts.getD 4 [])) (parts.getD 5 [])
    let lon := hqLon (parseFloat (parts.getD 6 [])) (parts.getD 7 [])
    let speed := (parseFloat (parts.getD 8 [])).orDefault 0
    let heading := (parseFloat (parts.getD 9 [])).orDefault 0
    match hqTimestamp (parts.getD 2 []) (parts.getD 10 []) with
    | .error e => .error e
    | .ok ts =>
      .ok (if isValidCoordinate lat lon then
        some { type := "location"
               device_id := String.mk (parts.getD 0 [])
               lat := lat
               lon := lon
               speed := speed.mulC (mkRat 1852 1000)
               heading := some heading
               altitude := none
               timestamp := ts
               raw_data := none
               parsed_at := none }
      else none)

/-- Embedding of `parseHQFormat` (parser.js lines 141-216): a line bounded by
the literal `*HQ,` start marker and `#` end marker, stripped and split on
commas; at least 12 fields required; the body runs inside its own try/catch,
so an exception there yields `null` rather than escaping the decoder. -/
def parseHQFormat (cs : Chars) : Option GPSRecord :=
  if "*HQ,".data.isPrefixOf cs ∧ cs.getLast? = some '#' then
    let parts := splitChars ((cs.drop 4).dropLast) ','
    if 12 ≤ parts.length then
      match hqBody parts with
      | .ok r => r
      | .error _ => none
    else none
  else none

/-! ## The decoder chain and the `parse` entry point

The chain (parser.js lines 29-47) runs inside one try block whose catch
returns `null`.  Each decoder attempt is given the result type
`Except Unit (Option GPSRecord)` so that the exception behaviour of the chain
is part of the model; the first three decoder bodies contain no throwing
operation (their only risky call, `parseTimestamp`, catches internally), and
`parseHQFormat` catches its own body, so every attempt is `.ok` by
construction, faithfully to the source. -/

def parseStandardFormatE (cs : Chars) : Except Unit (Option GPSRecord) :=
  pure (parseStandardFormat cs)

def parseCommaDelimitedE (cs : Chars) : Except Unit (Option GPSRecord) :=
  pure (parseCommaDelimited cs)

def parseAlternativeFormatE (cs : Chars) : Except Unit (Option GPSRecord) :=
  pure (parseAlternativeFormat cs)

def parseHQFormatE (cs : Chars) : Except Unit (Option GPSRecord) :=
  pure (parseHQFormat cs)

/-- The short-circuit disjunction
`parseStandardFormat(data) || parseCommaDelimited(data) ||
parseAlternativeFormat(data) || parseHQFormat(data)`, with each decoder's
exceptions propagating (there is no per-decoder catch in the source). -/
def parseChainE (cs : Chars) : Except Unit (Option GPSRecord) := do
  match ← parseStandardFormatE cs with
  | some r => pure (some r)
  | none =>
    match ← parseCommaDelimitedE cs with
    | some r => pure (some r)
    | none =>
      match ← parseAlternativeFormatE cs with
      | some r => pure (some r)
      | none => parseHQFormatE cs

/-- Result of one decoder attempt with its exception contained to that attempt
(an erroring attempt treated as "no match"). -/
def contained (e : Except Unit (Option GPSRecord)) : Option GPSRecord :=
  match e with
  | .ok r => r
  | .error _ => none

/-- Body of the try block of `parse`: run the chain, then attach `raw_data`
and `parsed_at` to a successful result. -/
def parseAttempt (data : String) : Except Unit (Option GPSRecord) := do
  match ← parseChainE data.data with
  | some r => pure (some { r with raw_data := some data, parsed_at := some .now })
  | none => pure none

/-- The JS value handed to `parse`: a string, or any non-string
(`null`, `undefined`, numbers, objects, ...). -/
inductive JsValue where
  | str : String → JsValue
  | null : JsValue
  | undefined : JsValue
  | other : JsValue
deriving DecidableEq

/-- Embedding of the `parse` entry point (parser.js lines 21-48): non-strings
and the empty string (falsy) yield `null`; otherwise the trimmed line is run
through the decoder chain inside a try whose catch yields `null`. -/
def parse (v : JsValue) : Option GPSRecord :=
  match v with
  | .str s =>
    if s = "" then none
    else
      match parseAttempt (jsTrim s) with
      | .ok r => r
      | .error _ => none
  | _ => none

/-! ## Packet classification predicates (parser.js lines 291-315) -/

/-- Pattern `^\d+,lit$` with the `/i` flag: a non-empty digit run, a comma,
then the literal, anchored at both ends. -/
def digitThenLit (cs lit : Chars) : Bool :=
  decide (cs.takeWhile isDigitC ≠ []) && ciEqL (cs.dropWhile isDigitC) (',' :: lit)

/-- Embedding of `isHeartbeat`: bare `heartbeat`/`ping`/`alive`, a
digit-prefixed `heartbeat`, or a line starting with `ST900,heartbeat`
(case-insensitive; the argument is trimmed again inside). -/
def isHeartbeat (cs : Chars) : Bool :=
  let d := trimL cs
  ciEqL d "heartbeat".data || ciEqL d "ping".data || ciEqL d "alive".data ||
  digitThenLit d "heartbeat".data || ciHeadL d "st900,heartbeat".data

/-- Search for `imei:\d+,login` (case-insensitive, unanchored) at one start
position. -/
def imeiLoginAt (cs : Chars) : Bool :=
  match ciStrip "imei:".data cs with
  | some r1 =>
    match takeClass isDigitC r1 with
    | some (_, r2) => (ciStrip ",login".data r2).isSome
    | none => false
  | none => false

def imeiLoginSearch : Chars → Bool
  | [] => false
  | c :: rest => imeiLoginAt (c :: rest) || imeiLoginSearch rest

/-- Embedding of `isLogin`: bare `login`/`connect`/`hello`, a digit-prefixed
`login`, a line starting with `ST900,login`, or `imei:<digits>,login`
anywhere in the line (all case-insensitive). -/
def isLogin (cs : Chars) : Bool :=
  let d := trimL cs
  ciEqL d "login".data || ciEqL d "connect".data || ciEqL d "hello".data ||
  digitThenLit d "login".data || ciHeadL d "st900,login".data ||
  imeiLoginSearch d

/-- Leftmost match of `\d{10,}` (server.js line 137): the first maximal digit
run of length at least 10.  A start inside an earlier, shorter run only yields
a suffix of that run, so skipping whole runs is the regex's leftmost search.
Structural budget as in `kvScanF`. -/
def findDigitRunF : ℕ → Chars → Option Chars
  | 0, _ => none
  | _ + 1, [] => none
  | fuel + 1, c :: rest =>
    if isDigitC c then
      let run := (c :: rest).takeWhile isDigitC
      if 10 ≤ run.length then some run
      else findDigitRunF fuel (rest.dropWhile isDigitC)
    else findDigitRunF fuel rest

def findDigitRun (cs : Chars) : Option Chars := findDigitRunF cs.length cs

/-! ## Connection handling (server.js)

Per-session mutable state and the per-message step.  Wall-clock readings are
supplied as an abstract tick `now`; the storage collaborator's behaviour for
the single insert a step can make is supplied as a `DbOutcome` oracle
(better-sqlite3 either returns a truthy result object or throws, which
`database.js` re-throws). -/

structure ClientState where
  deviceId : Option String
  packetsReceived : ℕ
  connectedAt : ℕ
  lastActivity : ℕ
deriving DecidableEq

inductive DbOutcome where
  | ret : Bool → DbOutcome      -- `insertGpsLog` returned, with the result's truthiness
  | threw : DbOutcome           -- `insertGpsLog` threw
deriving DecidableEq

/-- Outcome of one inbound data event: the updated session entry, the
acknowledgment strings written to the socket, and the records handed to
`insertGpsLog` (unmodified `parsedData`, server.js line 166). -/
structure StepResult where
  client : Option ClientState
  acks : List String
  inserted : List GPSRecord
deriving DecidableEq

/-- Embedding of `handleConnection` (server.js lines 46-85): a fresh session
entry with no device identity, plus the unsolicited `OK` greeting written
before any data arrives. -/
def handleConnection (now : ℕ) : ClientState × List String :=
  ({ deviceId := none, packetsReceived := 0, connectedAt := now, lastActivity := now },
   ["OK\n"])

/-- Embedding of `handleLogin` (server.js lines 133-147): the first run of at
least 10 digits, when present, is stored as the session's device id —
unconditionally, overwriting any previously resolved identity — and `LOAD` is
acknowledged. -/
def handleLogin (st : ClientState) (raw : Chars) : ClientState × List String :=
  (match findDigitRun raw with
   | some d => { st with deviceId := some (String.mk d) }
   | none => st,
   ["LOAD\n"])

/-- Embedding of `handleGPSData` (server.js lines 149-180): the session's
device id is backfilled from the record only when the session has none and the
record's id is truthy (non-empty); the record itself is inserted unchanged;
`OK` on a truthy insert result, `ERROR` when the result is falsy or the insert
throws (caught by this handler's own try/catch). -/
def handleGPSData (st : ClientState) (db : DbOutcome) (r : GPSRecord) :
    ClientState × List String × List GPSRecord :=
  let st' := if st.deviceId = none ∧ r.device_id ≠ "" then
    { st with deviceId := some r.device_id } else st
  match db with
  | .ret true => (st', ["OK\n"], [r])
  | .ret false => (st', ["ERROR\n"], [r])
  | .threw => (st', ["ERROR\n"], [r])

/-- Embedding of `handleData` (server.js lines 87-126) for one data event
(one protocol line): trim, drop the event if the session entry is gone,
update activity counters, then classify — heartbeat, login, decoded location
(via `parse`), or unrecognized (`ERROR`). -/
def handleData (client : Option ClientState) (db : DbOutcome) (now : ℕ)
    (raw : String) : StepResult :=
  let rawData := jsTrim raw
  match client with
  | none => { client := none, acks := [], inserted := [] }
  | some st0 =>
    let st := { st0 with lastActivity := now, packetsReceived := st0.packetsReceived + 1 }
    if isHeartbeat rawData.data then
      { client := some st, acks := ["OK\n"], inserted := [] }
    else if isLogin rawData.data then
      let r := handleLogin st rawData.data
      { client := some r.1, acks := r.2, inserted := [] }
    else
      match parse (.str rawData) with
      | some rec =>
        let r := handleGPSData st db rec
        { client := some r.1, acks := r.2.1, inserted := r.2.2 }
      | none => { client := some st, acks := ["ERROR\n"], inserted := [] }

/-! ## Helper lemmas -/

theorem ratFloor_eq_floor (q : ℚ) : JsNum.ratFloor q = ⌊q⌋ := Rat.floor_def.symm

theorem ratTrunc_eq_floor_of_nonneg (q : ℚ) (h : 0 ≤ q) : JsNum.ratTrunc q = ⌊q⌋ := by
  have hnum : 0 ≤ q.num := Rat.num_nonneg.mpr h
  have hden : (0 : ℤ) ≤ (q.den : ℤ) := Int.natCast_nonneg _
  rw [JsNum.ratTrunc, Int.tdiv_eq_ediv hnum hden, Rat.floor_def]

/-- Core arithmetic of the sexagesimal conversion: on `v = D * 100 + M` with
`M` a fractional-minutes value in `[0, 100)`, floor recovers `D`, the JS
remainder recovers `M`, and the result is `D + M / 60`. -/
theorem ddmm_spec (D : ℕ) (M : ℚ) (h0 : 0 ≤ M) (h100 : M < 100) :
    ddmmToDecimal (.num ((D : ℚ) * 100 + M)) = .num ((D : ℚ) + M / 60) := by
  have hv : ((D : ℚ) * 100 + M) / 100 = (D : ℚ) + M / 100 := by ring
  have hfl : ⌊((D : ℚ) + M / 100)⌋ = (D : ℤ) := by
    rw [Int.floor_eq_iff]
    constructor
    · push_cast
      have : 0 ≤ M / 100 := by positivity
      linarith
    · push_cast
      have : M / 100 < 1 := by
        rw [div_lt_one (by norm_num)]
        exact h100
      linarith
  have htr : JsNum.ratTrunc ((D : ℚ) + M / 100) = (D : ℤ) := by
    rw [ratTrunc_eq_floor_of_nonneg _ (by positivity), hfl]
  simp only [ddmmToDecimal, JsNum.divC, JsNum.floorN, JsNum.modC, JsNum.add,
    ratFloor_eq_floor, hv, hfl, htr]
  congr 1
  push_cast
  ring

/-! ## C7 -/

/-- C7: for every sexagesimal value `v = D * 100 + M` with `0 ≤ D ≤ 180` and
`0 ≤ M < 100`, the converter yields `D + M / 60` in magnitude — obtained as
`degrees = floor(v / 100)`, `minutes = v mod 100` — negated exactly on
hemisphere `S` for the latitude path and `W` for the longitude path, with no
bounds clamping applied. -/
theorem sexagesimal_conversion_exact (D : ℕ) (M : ℚ) (_hD : D ≤ 180)
    (h0 : 0 ≤ M) (h100 : M < 100) :
    (∀ dir : Chars, hqLat (.num ((D : ℚ) * 100 + M)) dir =
      .num (if dir = ['S'] then -((D : ℚ) + M / 60) else (D : ℚ) + M / 60)) ∧
    (∀ dir : Chars, hqLon (.num ((D : ℚ) * 100 + M)) dir =
      .num (if dir = ['W'] then -((D : ℚ) + M / 60) else (D : ℚ) + M / 60)) := by
  constructor
  · intro dir
    by_cases h : dir = ['S'] <;>
      simp [hqLat, h, ddmm_spec D M h0 h100, JsNum.negN]
  · intro dir
    by_cases h : dir = ['W'] <;>
      simp [hqLon, h, ddmm_spec D M h0 h100, JsNum.negN]

unseal Rat.add Rat.mul Rat.sub Rat.inv in
/-- Witness for C7 at the sample latitude 3635.1452 S and longitude 3635.1452 E. -/
theorem sexagesimal_conversion_exact_witness :
    hqLat (.num ((36 : ℚ) * 100 + mkRat 351452 10000)) ['S'] =
      .num (-((36 : ℚ) + (mkRat 351452 10000) / 60)) ∧
    hqLon (.num ((36 : ℚ) * 100 + mkRat 351452 10000)) ['E'] =
      .num ((36 : ℚ) + (mkRat 351452 10000) / 60) := by
  have h := sexagesimal_conversion_exact 36 (mkRat 351452 10000)
    (by norm_num) (by decide) (by decide)
  refine ⟨?_, ?_⟩
  · simpa using h.1 ['S']
  · simpa using h.2 ['E']

/-! ## C8 -/

/-- C8: `parseTimestamp` resolves a 10-digit string as Unix seconds and a
13-digit string as Unix milliseconds (earlier branches cannot fire for these
lengths), so whenever the 13-digit string's value is the 10-digit string's
value times 1000, the two parses denote the same instant. -/
theorem parseTimestamp_seconds_millis_agree :
    (∀ t : Chars, t.length = 10 → t.all isDigitC = true →
      parseTimestamp (some t) = .instant ((digitsToNat t : ℤ) * 1000)) ∧
    (∀ t : Chars, t.length = 13 → t.all isDigitC = true →
      parseTimestamp (some t) = .instant (digitsToNat t)) ∧
    (∀ s t : Chars, s.length = 10 → s.all isDigitC = true →
      t.length = 13 → t.all isDigitC = true →
      digitsToNat t = digitsToNat s * 1000 →
      parseTimestamp (some s) = parseTimestamp (some t)) := by
  have h10 : ∀ t : Chars, t.length = 10 → t.all isDigitC = true →
      parseTimestamp (some t) = .instant ((digitsToNat t : ℤ) * 1000) := by
    intro t hlen hdig
    have hne : ¬(t = []) := by
      intro hnil
      rw [hnil] at hlen
      simp at hlen
    rw [parseTimestamp, if_neg hne, if_pos ⟨hlen, hdig⟩]
  have h13 : ∀ t : Chars, t.length = 13 → t.all isDigitC = true →
      parseTimestamp (some t) = .instant (digitsToNat t) := by
    intro t hlen hdig
    have hne : ¬(t = []) := by
      intro hnil
      rw [hnil] at hlen
      simp at hlen
    have hnot10 : ¬(t.length = 10 ∧ t.all isDigitC = true) := by
      intro hc
      omega
    rw [parseTimestamp, if_neg hne, if_neg hnot10, if_pos ⟨hlen, hdig⟩]
  refine ⟨h10, h13, ?_⟩
  intro s t hs hds ht hdt hval
  rw [h10 s hs hds, h13 t ht hdt, hval]
  push_cast
  ring_nf

/-- Witness for C8 on 1700000000 seconds vs 1700000000000 milliseconds. -/
theorem parseTimestamp_seconds_millis_agree_witness :
    parseTimestamp (some "1700000000".data) = parseTimestamp (some "1700000000000".data) :=
  parseTimestamp_seconds_millis_agree.2.2 "1700000000".data "1700000000000".data
    (by decide) (by decide) (by decide) (by decide) (by decide)

/-! ## C5 -/

/-- Shared helper: the decoder chain, with the exception semantics of the
source's single try block, always completes and equals trying every decoder
in priority order with each attempt's exceptions contained to that attempt. -/
theorem parseChainE_eq (cs : Chars) :
    parseChainE cs =
      .ok ((contained (parseStandardFormatE cs)).orElse (fun _ =>
        (contained (parseCommaDelimitedE cs)).orElse (fun _ =>
          (contained (parseAlternativeFormatE cs)).orElse (fun _ =>
            contained (parseHQFormatE cs))))) := by
  simp only [parseChainE, parseStandardFormatE, parseCommaDelimitedE,
    parseAlternativeFormatE, parseHQFormatE, contained, bind, Except.bind, pure,
    Except.pure]
  cases parseStandardFormat cs with
  | some r => rfl
  | none =>
    cases parseCommaDelimited cs with
    | some r => rfl
    | none =>
      cases parseAlternativeFormat cs with
      | some r => rfl
      | none => rfl

/-- C5: an exception raised inside a single decoder attempt never prevents a
later decoder from matching — on every raw line the chain's evaluation (with
exceptions propagating as in the source) completes without an escaping
exception and produces exactly the first-match result of the per-decoder
contained attempts. -/
theorem decoder_chain_exception_containment (cs : Chars) :
    parseChainE cs =
      .ok ((contained (parseStandardFormatE cs)).orElse (fun _ =>
        (contained (parseCommaDelimitedE cs)).orElse (fun _ =>
          (contained (parseAlternativeFormatE cs)).orElse (fun _ =>
            contained (parseHQFormatE cs))))) :=
  parseChainE_eq cs

/-! ## C10 -/

/-- C10: the `parse` entry point is total over its public interface — the
try-block body never produces an escaping exception on any string, and
non-strings, the empty string, and unmatched strings all yield `null`. -/
theorem parse_total_on_public_interface :
    (∀ s : String, ∃ o : Option GPSRecord, parseAttempt s = .ok o) ∧
    parse .null = none ∧ parse .undefined = none ∧ parse .other = none ∧
    parse (.str "") = none ∧ parse (.str "not a gps line") = none := by
  refine ⟨?_, rfl, rfl, rfl, rfl, ?_⟩
  · intro s
    rw [parseAttempt]
    simp only [bind, Except.bind, parseChainE_eq]
    cases (contained (parseStandardFormatE s.data)).orElse (fun _ =>
        (contained (parseCommaDelimitedE s.data)).orElse (fun _ =>
          (contained (parseAlternativeFormatE s.data)).orElse (fun _ =>
            contained (parseHQFormatE s.data)))) with
    | some r => exact ⟨_, rfl⟩
    | none => exact ⟨_, rfl⟩
  · decide

/-! ## C2 -/

/-- The coordinate portion of the NormalizedLocation invariant: numeric
coordinates, latitude in `[-90, 90]`, longitude in `[-180, 180]`, not both
exactly zero. -/
def InRangeRecord (r : GPSRecord) : Prop :=
  ∃ la lo : ℚ, r.lat = .num la ∧ r.lon = .num lo ∧
    -90 ≤ la ∧ la ≤ 90 ∧ -180 ≤ lo ∧ lo ≤ 180 ∧ ¬(la = 0 ∧ lo = 0)

/-- Shared helper: what passing `isValidCoordinate` means. -/
theorem isValid_bounds (a b : JsNum) (h : isValidCoordinate a b = true) :
    ∃ la lo : ℚ, a = .num la ∧ b = .num lo ∧
      -90 ≤ la ∧ la ≤ 90 ∧ -180 ≤ lo ∧ lo ≤ 180 ∧ ¬(la = 0 ∧ lo = 0) := by
  cases a with
  | nan => simp [isValidCoordinate, JsNum.isNaN] at h
  | inf s =>
    cases s <;> simp [isValidCoordinate, JsNum.isNaN, JsNum.geC, JsNum.leC] at h
  | num la =>
    cases b with
    | nan => simp [isValidCoordinate, JsNum.isNaN] at h
    | inf s =>
      cases s <;> simp [isValidCoordinate, JsNum.isNaN, JsNum.geC, JsNum.leC] at h
    | num lo =>
      simp only [isValidCoordinate, JsNum.isNaN, JsNum.geC, JsNum.leC,
        Bool.and_eq_true, Bool.or_eq_true, decide_eq_true_eq, Bool.not_eq_true'] at h
      obtain ⟨⟨⟨⟨⟨⟨-, -⟩, h1⟩, h2⟩, h3⟩, h4⟩, h5⟩ := h
      refine ⟨la, lo, rfl, rfl, h1, h2, h3, h4, ?_⟩
      rintro ⟨rfl, rfl⟩
      rcases h5 with h5 | h5 <;> simp [JsNum.num.injEq] at h5

/-- Shared helper: the positional decoder only returns records that passed
the coordinate gate. -/
theorem comma_gate (cs : Chars) (r : GPSRecord)
    (h : parseCommaDelimited cs = some r) : InRangeRecord r := by
  rw [parseCommaDelimited] at h
  split at h
  · dsimp only at h
    split at h
    · rename_i hguard
      simp only [Option.some.injEq] at h
      subst h
      simp only [Bool.and_eq_true] at hguard
      exact isValid_bounds _ _ hguard.2
    · exact absurd h (by simp)
  · exact absurd h (by simp)

/-- Shared helper: the key:value decoder only returns records that passed the
coordinate gate. -/
theorem alternative_gate (cs : Chars) (r : GPSRecord)
    (h : parseAlternativeFormat cs = some r) : InRangeRecord r := by
  rw [parseAlternativeFormat] at h
  split at h
  · dsimp only at h
    split at h
    · rename_i hguard
      simp only [Option.some.injEq] at h
      subst h
      exact isValid_bounds _ _ hguard
    · exact absurd h (by simp)
  · exact absurd h (by simp)

/-- Shared helper: the HQ try-block body only produces records that passed
the coordinate gate. -/
theorem hqBody_gate (parts : List Chars) (r : GPSRecord)
    (h : hqBody parts = .ok (some r)) : InRangeRecord r := by
  rw [hqBody] at h
  split at h
  · exact absurd h (by simp)
  · dsimp only at h
    split at h
    · exact absurd h (by simp)
    · simp only [Except.ok.injEq] at h
      split at h
      · rename_i hguard
        simp only [Option.some.injEq] at h
        subst h
        exact isValid_bounds _ _ hguard
      · exact absurd h (by simp)

/-- Shared helper: the HQ decoder only returns records that passed the
coordinate gate. -/
theorem hq_gate (cs : Chars) (r : GPSRecord)
    (h : parseHQFormat cs = some r) : InRangeRecord r := by
  rw [parseHQFormat] at h
  split at h
  · dsimp only at h
    split at h
    · split at h
      · rename_i o ho
        subst h
        exact hqBody_gate _ _ ho
      · exact absurd h (by simp)
    · exact absurd h (by simp)
  · exact absurd h (by simp)

/-- C2 (amended): the positional, key:value and HQ decoders — the decoders
that consult the shared `isValidCoordinate` gate — only produce records with
numeric latitude in `[-90, 90]`, numeric longitude in `[-180, 180]`, and not
both coordinates exactly zero; the boundary records `(90, 180)` and
`(-90, -180)` are producible.  (The tagged decoder performs no coordinate
validation: see the counterexample.) -/
theorem validating_decoders_coordinate_gate :
    (∀ cs r, parseCommaDelimited cs = some r → InRangeRecord r) ∧
    (∀ cs r, parseAlternativeFormat cs = some r → InRangeRecord r) ∧
    (∀ cs r, parseHQFormat cs = some r → InRangeRecord r) ∧
    (parse (.str "1,90,180,5,0,1700000000")).map (fun r => (r.lat, r.lon)) =
      some (.num 90, .num 180) ∧
    (parse (.str "2,-90,-180,5,0,1700000000")).map (fun r => (r.lat, r.lon)) =
      some (.num (-90), .num (-180)) := by
  refine ⟨comma_gate, alternative_gate, hq_gate, ?_, ?_⟩ <;> decide

/-- Witness for C2 on a concrete positional line. -/
theorem validating_decoders_coordinate_gate_witness :
    InRangeRecord
      { type := "location", device_id := "8160528336", lat := .num (mkRat 351234 10000),
        lon := .num (mkRat 365678 10000), speed := .num 40,
        heading := some (.num 0), altitude := none,
        timestamp := .instant 1757419200000, raw_data := none, parsed_at := none } :=
  validating_decoders_coordinate_gate.1 "8160528336,35.1234,36.5678,40,0,20250909120000".data
    _ (by decide)

/-- Counterexample for C2 as frozen: the tagged decoder (and hence the chain)
produces the null-island record `(0, 0)`, which the claim asserts no decoder
ever produces. -/
theorem standard_decoder_accepts_null_island :
    (parseStandardFormat "ST900,ID:1,Lat:0,Lon:0,Speed:1,Time:1700000000".data).map
      (fun r => (r.lat, r.lon)) = some (.num 0, .num 0) ∧
    (parse (.str "ST900,ID:1,Lat:0,Lon:0,Speed:1,Time:1700000000")).map
      (fun r => (r.lat, r.lon)) = some (.num 0, .num 0) := by
  constructor <;> decide

/-! ## C9 -/

theorem takeClass_run_ne (p : Char → Bool) (cs run rest : Chars)
    (h : takeClass p cs = some (run, rest)) : run ≠ [] := by
  rw [takeClass] at h
  split at h
  · exact absurd h (by simp)
  · rename_i hne
    simp only [Option.some.injEq, Prod.mk.injEq] at h
    rw [← h.1]
    exact hne

theorem tryStandardAt_id_ne (cs : Chars) (caps : StdCaps)
    (h : tryStandardAt cs = some caps) : caps.idc ≠ [] := by
  simp only [tryStandardAt, bind, Option.bind_eq_some, pure, Option.some.injEq] at h
  obtain ⟨a1, -, ⟨i, ir⟩, hid, a2, -, ⟨la, lar⟩, -, a3, -, ⟨lo, lor⟩, -, a4, -,
    ⟨sp, spr⟩, -, a5, -, ⟨ti, tir⟩, -, hcaps⟩ := h
  rw [← hcaps]
  exact takeClass_run_ne _ _ _ _ hid

theorem searchStandard_id_ne :
    ∀ (cs : Chars) (caps : StdCaps), searchStandard cs = some caps → caps.idc ≠ []
  | [], caps, h => by simp [searchStandard] at h
  | c :: rest, caps, h => by
    simp only [searchStandard] at h
    split at h
    · rename_i caps' hcaps
      cases h
      exact tryStandardAt_id_ne _ _ hcaps
    · exact searchStandard_id_ne rest caps h

theorem kvScanF_val_ne :
    ∀ (fuel : ℕ) (cs k v : Chars), (k, v) ∈ kvScanF fuel cs → v ≠ [] := by
  intro fuel
  induction fuel with
  | zero => intro cs k v h; simp [kvScanF] at h
  | succ n ih =>
    intro cs k v h
    match cs with
    | [] => simp [kvScanF] at h
    | c :: rest =>
      rw [kvScanF] at h
      split at h
      · split at h
        · dsimp only at h
          split at h
          · exact ih _ _ _ h
          · rename_i r2 hvne
            rcases List.mem_cons.mp h with heq | hmem
            · obtain ⟨-, hv⟩ := Prod.mk.injEq .. ▸ heq
              rw [← hv] at hvne
              exact hvne
            · exact ih _ _ _ hmem
        · exact ih _ _ _ h
      · exact ih _ _ _ h

theorem kvLookup_val_ne (cs : Chars) (k : String) (v : Chars)
    (h : kvLookup (kvScan cs) k = some v) : v ≠ [] := by
  rw [kvLookup] at h
  simp only [Option.map_eq_some'] at h
  obtain ⟨p, hfind, hv⟩ := h
  have hmem := List.mem_of_find?_eq_some hfind
  rw [List.mem_reverse, List.mem_map] at hmem
  obtain ⟨q, hq, hpq⟩ := hmem
  have := kvScanF_val_ne cs.length cs q.1 q.2 hq
  rw [← hv, ← hpq]
  exact this

theorem string_mk_ne_empty (v : Chars) (h : v ≠ []) : String.mk v ≠ "" := by
  intro hc
  apply h
  have := congrArg String.data hc
  simpa using this

/-- C9 (amended): the tagged and key:value decoders always produce a
non-empty device identifier (their regexes capture at least one character);
the positional decoder copies the line's first comma-field verbatim as the
identifier, so its identifier is empty exactly when the line starts with a
comma (see the counterexample). -/
theorem device_id_by_decoder :
    (∀ cs r, parseStandardFormat cs = some r → r.device_id ≠ "") ∧
    (∀ cs r, parseAlternativeFormat cs = some r → r.device_id ≠ "") ∧
    (∀ cs r, parseCommaDelimited cs = some r →
      r.device_id = String.mk ((splitChars cs ',').getD 0 [])) := by
  refine ⟨?_, ?_, ?_⟩
  · intro cs r h
    rw [parseStandardFormat] at h
    split at h
    · rename_i caps hcaps
      simp only [Option.some.injEq] at h
      subst h
      exact string_mk_ne_empty _ (searchStandard_id_ne _ _ hcaps)
    · exact absurd h (by simp)
  · intro cs r h
    rw [parseAlternativeFormat] at h
    split at h
    · rename_i imei latS lonS himei hlat hlon
      dsimp only at h
      split at h
      · simp only [Option.some.injEq] at h
        subst h
        exact string_mk_ne_empty _ (kvLookup_val_ne _ _ _ himei)
      · exact absurd h (by simp)
    · exact absurd h (by simp)
  · intro cs r h
    rw [parseCommaDelimited] at h
    split at h
    · dsimp only at h
      split at h
      · simp only [Option.some.injEq] at h
        subst h
        rfl
      · exact absurd h (by simp)
    · exact absurd h (by simp)

/-- Witness for C9 on a concrete tagged line. -/
theorem device_id_by_decoder_witness :
    ({ type := "location", device_id := "8160528336", lat := .num (mkRat 351234 10000),
       lon := .num (mkRat 365678 10000), speed := .num 40,
       heading := none, altitude := none,
       timestamp := .instant 1757376000000, raw_data := none,
       parsed_at := none } : GPSRecord).device_id ≠ "" :=
  device_id_by_decoder.1 "ST900,ID:8160528336,Lat:35.1234,Lon:36.5678,Speed:40,Time:20250909".data
    _ (by decide)

/-- Counterexample for C9 as frozen: a line starting with a comma makes the
positional decoder produce (and the chain deliver) a record whose device
identifier is the empty string. -/
theorem comma_decoder_empty_device_id :
    (parseCommaDelimited ",35.1234,36.5678,40,0,20250909120000".data).map
      GPSRecord.device_id = some "" ∧
    (parse (.str ",35.1234,36.5678,40,0,20250909120000")).map
      GPSRecord.device_id = some "" := by
  constructor <;> decide

/-! ## C4 -/

/-- C4: for every inbound line on a live session, `handleData` writes exactly
one acknowledgment, chosen by the classification outcome — `OK` for a
heartbeat, `LOAD` for a login frame, `OK` for a location record whose insert
returns a truthy result, `ERROR` when the insert returns falsy or throws, and
`ERROR` for an unclassifiable line; an unsolicited `OK` is also written on
connection establishment. -/
theorem ack_per_line (st : ClientState) (db : DbOutcome) (now : ℕ) (raw : String) :
    (handleData (some st) db now raw).acks =
      [if isHeartbeat (jsTrim raw).data then "OK\n"
       else if isLogin (jsTrim raw).data then "LOAD\n"
       else
         match parse (.str (jsTrim raw)) with
         | some _ =>
           match db with
           | .ret true => "OK\n"
           | .ret false => "ERROR\n"
           | .threw => "ERROR\n"
         | none => "ERROR\n"] ∧
    (handleConnection now).2 = ["OK\n"] := by
  refine ⟨?_, rfl⟩
  rw [handleData]
  dsimp only
  by_cases h1 : isHeartbeat (jsTrim raw).data
  · simp [h1]
  · simp only [h1, Bool.false_eq_true, if_false]
    by_cases h2 : isLogin (jsTrim raw).data
    · simp [h2, handleLogin]
    · simp only [h2, Bool.false_eq_true, if_false]
      cases parse (.str (jsTrim raw)) with
      | some rec => cases db with
        | ret b => cases b <;> simp [handleGPSData]
        | threw => simp [handleGPSData]
      | none => simp

/-! ## C3 -/

/-- C3 (amended): how session identity actually evolves, and how records are
attributed.  A heartbeat leaves the session's identity unchanged; a login
frame carrying a run of at least 10 digits overwrites the identity
unconditionally (identity is not immutable); a decoded location record
backfills the identity only when the session has none and the record's own
identifier is non-empty; and every decoded record is handed to storage
unchanged, attributed to its own embedded identifier — never rewritten to the
session's identifier, and never inheriting it. -/
theorem session_identity_evolution (st : ClientState) (db : DbOutcome) (now : ℕ)
    (raw : String) :
    (handleData (some st) db now raw).inserted =
      (if isHeartbeat (jsTrim raw).data then []
       else if isLogin (jsTrim raw).data then []
       else
         match parse (.str (jsTrim raw)) with
         | some r => [r]
         | none => []) ∧
    (handleData (some st) db now raw).client.bind ClientState.deviceId =
      (if isHeartbeat (jsTrim raw).data then st.deviceId
       else if isLogin (jsTrim raw).data then
         match findDigitRun (jsTrim raw).data with
         | some ds => some (String.mk ds)
         | none => st.deviceId
       else
         match parse (.str (jsTrim raw)) with
         | some r =>
           if st.deviceId = none ∧ r.device_id ≠ "" then some r.device_id
           else st.deviceId
         | none => st.deviceId) := by
  rw [handleData]
  dsimp only
  by_cases h1 : isHeartbeat (jsTrim raw).data
  · simp [h1]
  · simp only [h1, Bool.false_eq_true, if_false]
    by_cases h2 : isLogin (jsTrim raw).data
    · simp only [h2, if_true]
      rw [handleLogin]
      cases findDigitRun (jsTrim raw).data with
      | some ds => simp
      | none => simp
    · simp only [h2, Bool.false_eq_true, if_false]
      cases parse (.str (jsTrim raw)) with
      | some rec =>
        dsimp only
        rw [handleGPSData.eq_def]
        dsimp only
        by_cases h3 : st.deviceId = none ∧ rec.device_id ≠ ""
        · cases db with
          | ret b => cases b <;> simp [h3]
          | threw => simp [h3]
        · cases db with
          | ret b => cases b <;> simp [h3]
          | threw => simp [h3]
      | none => simp

/-- Counterexample for C3 as frozen: a session identified as `1234567890` via
a login frame then receives a location line embedding device id `9999999999`;
the record is persisted under its own id `9999999999`, not attributed to the
session's original identifier. -/
theorem session_identity_not_sticky_for_records :
    (handleData (some (handleConnection 0).1) (.ret true) 1
        "1234567890,login").client.bind ClientState.deviceId = some "1234567890" ∧
    (handleData
        (handleData (some (handleConnection 0).1) (.ret true) 1 "1234567890,login").client
        (.ret true) 2 "9999999999,35.0,36.0,0,0,1700000000").inserted.map
      GPSRecord.device_id = ["9999999999"] ∧
    (handleData
        (handleData (some (handleConnection 0).1) (.ret true) 1 "1234567890,login").client
        (.ret true) 2 "9999999999,35.0,36.0,0,0,1700000000").client.bind
      ClientState.deviceId = some "1234567890" ∧
    ("9999999999" : String) ≠ "1234567890" := by
  refine ⟨?_, ?_, ?_, ?_⟩ <;> decide

/-! ## C1 -/

/-- Two-digit zero-padded decimal rendering, used to quantify over all
well-formed `DDMMYY` / `HHMMSS` fields. -/
def render2 (n : ℕ) : Chars := [Char.ofNat (48 + n / 10), Char.ofNat (48 + n % 10)]

theorem dchar_isDigit : ∀ k < 10, isDigitC (Char.ofNat (48 + k)) = true := by decide

theorem dchar_toNat : ∀ k < 10, (Char.ofNat (48 + k)).toNat = 48 + k := by decide

theorem render2_digits (n : ℕ) (h : n ≤ 99) : (render2 n).all isDigitC = true := by
  have h1 : n / 10 < 10 := by omega
  have h2 : n % 10 < 10 := by omega
  simp only [render2, List.all_cons, List.all_nil, Bool.and_eq_true, Bool.and_true]
  exact ⟨dchar_isDigit _ h1, dchar_isDigit _ h2⟩

theorem parse2 (n : ℕ) (h : n ≤ 99) : digitsToNat (render2 n) = n := by
  have h1 : n / 10 < 10 := by omega
  have h2 : n % 10 < 10 := by omega
  simp only [render2, digitsToNat, List.foldl]
  rw [dchar_toNat _ h1, dchar_toNat _ h2]
  omega

theorem parseYear (y2 : ℕ) (h : y2 ≤ 99) :
    digitsToNat ('2' :: '0' :: render2 y2) = 2000 + y2 := by
  have h1 : y2 / 10 < 10 := by omega
  have h2 : y2 % 10 < 10 := by omega
  have c2 : ('2' : Char).toNat = 50 := rfl
  have c0 : ('0' : Char).toNat = 48 := rfl
  simp only [render2, digitsToNat, List.foldl]
  rw [c2, c0, dchar_toNat _ h1, dchar_toNat _ h2]
  omega

theorem daysInMonth_le (y m : ℕ) : daysInMonth y m ≤ 31 := by
  rw [daysInMonth]
  split_ifs <;> omega

/-- The Date constructor on fields rendered from in-range numeric components
yields exactly the civil epoch value. -/
theorem isoDateTimeMs_render (y2 mo d h mi s : ℕ) (hy : y2 ≤ 99)
    (hmo1 : 1 ≤ mo) (hmo : mo ≤ 12) (hd1 : 1 ≤ d)
    (hd : d ≤ daysInMonth (2000 + y2) mo) (hh : h ≤ 23) (hmi : mi ≤ 59)
    (hs : s ≤ 59) :
    isoDateTimeMs ('2' :: '0' :: render2 y2) (render2 mo) (render2 d)
      (render2 h) (render2 mi) (render2 s) =
      some (utcMs (2000 + y2) mo d h mi s) := by
  have hmo99 : mo ≤ 99 := by omega
  have hd99 : d ≤ 99 := by
    have := daysInMonth_le (2000 + y2) mo
    omega
  have hh99 : h ≤ 99 := by omega
  have hmi99 : mi ≤ 99 := by omega
  have hs99 : s ≤ 99 := by omega
  have hydig : ('2' :: '0' :: render2 y2).all isDigitC = true := by
    simp only [List.all_cons, Bool.and_eq_true]
    exact ⟨by decide, by decide, render2_digits y2 hy⟩
  rw [isoDateTimeMs, if_pos]
  · dsimp only
    rw [parseYear y2 hy, parse2 mo hmo99, parse2 d hd99, parse2 h hh99,
      parse2 mi hmi99, parse2 s hs99, if_pos]
    exact ⟨hmo1, hmo, hd1, hd, Or.inl hh, hmi, hs⟩
  · refine ⟨rfl, hydig, rfl, render2_digits mo hmo99, rfl, render2_digits d hd99,
      rfl, render2_digits h hh99, rfl, render2_digits mi hmi99, rfl,
      render2_digits s hs99⟩

unseal Rat.add Rat.mul Rat.sub Rat.inv in
/-- C1 (amended): for every HQ record with validity flag `A`, well-formed
split date/time fields and in-range coordinates, the emitted timestamp is the
UTC instant assembled from the `DDMMYY` date and `HHMMSS` time fields *plus a
fixed 3-hour regional (Syria) offset* applied inside the decoder; in
particular the sample line yields the instant 2025-09-10T00:18:06Z (the
assembled UTC instant 2025-09-09T21:18:06Z shifted by 3 hours), together with
device `3072866250`, latitude 36.5858 N, longitude 37.0376 E (exact rationals
below) and speed 0. -/
theorem hq_timestamp_utc_plus_3h :
    (∀ d mo y2 h mi s : ℕ,
      1 ≤ mo → mo ≤ 12 → 1 ≤ d → d ≤ daysInMonth (2000 + y2) mo → y2 ≤ 99 →
      h ≤ 23 → mi ≤ 59 → s ≤ 59 →
      hqTimestamp (render2 h ++ render2 mi ++ render2 s)
          (render2 d ++ render2 mo ++ render2 y2) =
        .ok (.instant (utcMs (2000 + y2) mo d h mi s + 10800000))) ∧
    (parseHQFormat ("*HQ,3072866250,V1,211806,A,3635.1452,N,03702.2586,E," ++
        "000.00,000,090925,7FFFFBFF,417,02,202,23002#").data).map
      (fun r => (r.device_id, r.lat, r.lon, r.speed, r.timestamp)) =
      some ("3072866250", .num (mkRat 5487863 150000), .num (mkRat 11111293 300000),
        .num 0, .instant (utcMs 2025 9 9 21 18 6 + 10800000)) := by
  constructor
  · intro d mo y2 h mi s hmo1 hmo hd1 hd hy hh hmi hs
    have e1 : substrL (render2 d ++ render2 mo ++ render2 y2) 0 2 = render2 d := by
      simp [render2, substrL]
    have e2 : substrL (render2 d ++ render2 mo ++ render2 y2) 2 2 = render2 mo := by
      simp [render2, substrL]
    have e3 : substrL (render2 d ++ render2 mo ++ render2 y2) 4 2 = render2 y2 := by
      simp [render2, substrL]
    have f1 : substrL (render2 h ++ render2 mi ++ render2 s) 0 2 = render2 h := by
      simp [render2, substrL]
    have f2 : substrL (render2 h ++ render2 mi ++ render2 s) 2 2 = render2 mi := by
      simp [render2, substrL]
    have f3 : substrL (render2 h ++ render2 mi ++ render2 s) 4 2 = render2 s := by
      simp [render2, substrL]
    rw [hqTimestamp]
    rw [e1, e2, e3, f1, f2, f3,
      isoDateTimeMs_render y2 mo d h mi s hy hmo1 hmo hd1 hd hh hmi hs]
    norm_num
  · decide

unseal Rat.add Rat.mul Rat.sub Rat.inv in
/-- Counterexample for C1 as frozen: the decoder does not emit the plain UTC
instant assembled from the date/time fields — on the sample line it emits
that instant shifted by 3 hours (2025-09-10T00:18:06Z), which differs from
the claimed 2025-09-09T21:18:06Z. -/
theorem hq_sample_timestamp_not_utc :
    (parseHQFormat ("*HQ,3072866250,V1,211806,A,3635.1452,N,03702.2586,E," ++
        "000.00,000,090925,7FFFFBFF,417,02,202,23002#").data).map
      GPSRecord.timestamp = some (.instant (utcMs 2025 9 9 21 18 6 + 10800000)) ∧
    JsTime.instant (utcMs 2025 9 9 21 18 6 + 10800000) ≠
      .instant (utcMs 2025 9 9 21 18 6) := by
  constructor <;> decide

/-- Witness for C1 on the sample line's own date and time fields. -/
theorem hq_timestamp_utc_plus_3h_witness :
    hqTimestamp (render2 21 ++ render2 18 ++ render2 6)
        (render2 9 ++ render2 9 ++ render2 25) =
      .ok (.instant (utcMs 2025 9 9 21 18 6 + 10800000)) := by
  have h := hq_timestamp_utc_plus_3h.1 9 9 25 21 18 6 (by norm_num) (by norm_num)
    (by norm_num) (by decide) (by norm_num) (by norm_num) (by norm_num) (by norm_num)
  simpa using h

/-! ## C6 -/

/-- C6: the decoders are applied in the fixed priority order tagged,
positional, key:value, HQ, and the first match determines the chain's result
(later decoders are not consulted); in particular the line that structurally
fits both the tagged and the positional shapes decodes via the tagged path
(device id `123`, not the positional field `ST900`), and the chain's output is
exactly the tagged decoder's record. -/
theorem decoder_priority_first_match :
    (∀ cs r, parseStandardFormat cs = some r → parseChainE cs = .ok (some r)) ∧
    (∀ cs r, parseStandardFormat cs = none → parseCommaDelimited cs = some r →
      parseChainE cs = .ok (some r)) ∧
    (∀ cs r, parseStandardFormat cs = none → parseCommaDelimited cs = none →
      parseAlternativeFormat cs = some r → parseChainE cs = .ok (some r)) ∧
    (∀ cs r, parseStandardFormat cs = none → parseCommaDelimited cs = none →
      parseAlternativeFormat cs = none → parseHQFormat cs = some r →
      parseChainE cs = .ok (some r)) ∧
    (parse (.str "ST900,ID:123,Lat:10.0,Lon:20.0,Speed:5,Time:20250101000000")).map
      GPSRecord.device_id = some "123" ∧
    parse (.str "ST900,ID:123,Lat:10.0,Lon:20.0,Speed:5,Time:20250101000000") =
      (parseStandardFormat
          "ST900,ID:123,Lat:10.0,Lon:20.0,Speed:5,Time:20250101000000".data).map
        (fun r => { r with
          raw_data := some "ST900,ID:123,Lat:10.0,Lon:20.0,Speed:5,Time:20250101000000",
          parsed_at := some .now }) := by
  refine ⟨?_, ?_, ?_, ?_, by decide, by decide⟩
  · intro cs r h
    simp [parseChainE, parseStandardFormatE, bind, Except.bind, pure, Except.pure, h]
  · intro cs r h1 h2
    simp [parseChainE, parseStandardFormatE, parseCommaDelimitedE, bind,
      Except.bind, pure, Except.pure, h1, h2]
  · intro cs r h1 h2 h3
    simp [parseChainE, parseStandardFormatE, parseCommaDelimitedE,
      parseAlternativeFormatE, bind, Except.bind, pure, Except.pure, h1, h2, h3]
  · intro cs r h1 h2 h3 h4
    simp [parseChainE, parseStandardFormatE, parseCommaDelimitedE,
      parseAlternativeFormatE, parseHQFormatE, bind, Except.bind, pure,
      Except.pure, h1, h2, h3, h4]

/-- Witness for C6: the chain on the dual-shape line returns the tagged
decoder's record. -/
theorem decoder_priority_first_match_witness :
    parseChainE "ST900,ID:123,Lat:10.0,Lon:20.0,Speed:5,Time:20250101000000".data =
      .ok (some
        { type := "location", device_id := "123", lat := JsNum.num 10,
          lon := JsNum.num 20, speed := JsNum.num 5, heading := none,
          altitude := none, timestamp := JsTime.instant 1735689600000,
          raw_data := none, parsed_at := none }) :=
  decoder_priority_first_match.1
    "ST900,ID:123,Lat:10.0,Lon:20.0,Speed:5,Time:20250101000000".data _ (by decide)

end ST900
